import Mathlib

/-!
Shallow embedding of `src/proposals/models.py` of the pycon.tw repository:
the proposal data model (talk/tutorial proposals sharing `AbstractProposal`),
the `PrimarySpeaker` wrapper, `AdditionalSpeaker` co-speaker rows, the
`ProposalQuerySet` filters, the completion metrics, and the `LLMReview`
records.  Django querysets over a table are modelled as Lean lists; the
declared `Meta.ordering` of `AdditionalSpeaker` is modelled by sorting with
the declared key, and the per-instance optimization attributes
(`_additional_speaker_count`, `_additional_speakers`) by optional arguments.
Each operation additionally reports how many fresh database lookups it
issued, so that the N+1-avoidance contract is observable.
-/

namespace PyConTw

/-- Users are identified by their primary key (the object-relational layer
compares model instances by class and pk). -/
abbrev UserId := Nat

/-- ContentType pk: the tag distinguishing the proposal model variants
(TalkProposal vs TutorialProposal) in the generic foreign key. -/
abbrev ContentTypeId := Nat

/-- The `status` choices of `AdditionalSpeaker`
(`SPEAKING_STATUS_PENDING/ACCEPTED/DECLINED`). -/
inductive SpeakingStatus
  | pending
  | accepted
  | declined
deriving DecidableEq, Repr

/-- A row of the `AdditionalSpeaker` model: `user`, the generic
(`proposal_type`, `proposal_id`) reference, `status` and `cancelled`,
plus the implicit primary key `pk`. -/
structure AdditionalSpeaker where
  pk : Nat
  user : UserId
  proposal_type : ContentTypeId
  proposal_id : Nat
  status : SpeakingStatus
  cancelled : Bool
deriving DecidableEq, Repr

/-- `AdditionalSpeaker.Meta.ordering = ['proposal_type', 'proposal_id', 'pk']`:
the lexicographic ordering key of an additional speaker row. -/
def AdditionalSpeaker.orderingKey (a : AdditionalSpeaker) :
    Lex (Nat × Lex (Nat × Nat)) :=
  toLex (a.proposal_type, toLex (a.proposal_id, a.pk))

/-- The order relation declared by `AdditionalSpeaker.Meta.ordering`. -/
def AdditionalSpeaker.orderLE (a b : AdditionalSpeaker) : Prop :=
  a.orderingKey ≤ b.orderingKey

instance : DecidableRel AdditionalSpeaker.orderLE := fun a b =>
  inferInstanceAs (Decidable (a.orderingKey ≤ b.orderingKey))

instance : IsTotal AdditionalSpeaker AdditionalSpeaker.orderLE :=
  ⟨fun a b => le_total a.orderingKey b.orderingKey⟩

instance : IsTrans AdditionalSpeaker AdditionalSpeaker.orderLE :=
  ⟨fun _ _ _ h h' => le_trans h h'⟩

/-- The fields of `AbstractProposal` the claims touch, shared by
`TalkProposal` and `TutorialProposal`.  The generic relation
`additionalspeaker_set` is carried as the list of rows whose
(`proposal_type`, `proposal_id`) pair points at this proposal, in
table (insertion) order; queryset operations re-sort it by the declared
`Meta.ordering`. -/
structure AbstractProposal where
  pk : Nat
  proposal_type : ContentTypeId
  submitter : UserId
  abstract : String
  objective : String
  supplementary : String
  detailed_description : String
  outline : String
  cancelled : Bool
  accepted : Option Bool
  labels : String
  additionalspeaker_set : List AdditionalSpeaker
deriving DecidableEq, Repr

/-- The `PrimarySpeaker` wrapper as constructed: it keeps the proposal it
was built from (possibly absent) and the resolved user. -/
structure PrimarySpeaker where
  _proposal : Option AbstractProposal
  _user : UserId
deriving DecidableEq, Repr

/-- `PrimarySpeaker.__init__(*, proposal=None, user=None)`: raises
`ValueError` when both are absent, otherwise stores the proposal and
`user or proposal.submitter`. -/
def PrimarySpeaker.init (proposal : Option AbstractProposal)
    (user : Option UserId) : Except String PrimarySpeaker :=
  match proposal, user with
  | none, none => .error "must specify either proposal or user"
  | some p, none => .ok { _proposal := some p, _user := p.submitter }
  | p, some u => .ok { _proposal := p, _user := u }

/-- The `user` property. -/
def PrimarySpeaker.user (s : PrimarySpeaker) : UserId := s._user

/-- The `proposal` property. -/
def PrimarySpeaker.proposal (s : PrimarySpeaker) :
    Option AbstractProposal := s._proposal

/-- The `cancelled` property: always `False`. -/
def PrimarySpeaker.cancelled (_ : PrimarySpeaker) : Bool := false

/-- `PrimarySpeaker.__eq__`: both operands are `PrimarySpeaker` (the
isinstance check holds by typing) and the wrapped user and proposal agree. -/
def PrimarySpeaker.eq (a b : PrimarySpeaker) : Bool :=
  decide (a.user = b.user) && decide (a.proposal = b.proposal)

/-- An element yielded by the `speakers` generator: either the
`PrimarySpeaker` wrapper or an `AdditionalSpeaker` row. -/
inductive SpeakerEntry
  | primary (s : PrimarySpeaker)
  | additional (a : AdditionalSpeaker)
deriving DecidableEq, Repr

/-- `self.additionalspeaker_set.filter(cancelled=False)` evaluated as a
queryset: the non-cancelled rows of the generic relation, returned in the
declared `Meta.ordering` of `AdditionalSpeaker`. -/
def AbstractProposal.additionalQuery (p : AbstractProposal) :
    List AdditionalSpeaker :=
  List.insertionSort AdditionalSpeaker.orderLE
    (p.additionalspeaker_set.filter fun a => a.cancelled = false)

/-- `AbstractProposal.speakers`.  The optional arguments model the
`_additional_speaker_count` / `_additional_speakers` attributes the caller
may have annotated or prefetched (`none` = attribute absent, so the
`AttributeError` branch is taken).  Returns the yielded sequence paired
with the number of fresh database lookups issued. -/
def AbstractProposal.speakers (p : AbstractProposal)
    (precomputedCount : Option Nat)
    (precomputedList : Option (List AdditionalSpeaker)) :
    List SpeakerEntry × Nat :=
  let head := SpeakerEntry.primary { _proposal := some p, _user := p.submitter }
  let tail : List AdditionalSpeaker × Nat :=
    match precomputedList with
    | some l => (l, 0)
    | none => (p.additionalQuery, 1)
  match precomputedCount with
  | some c =>
      if c < 1 then ([head], 0)
      else (head :: tail.1.map SpeakerEntry.additional, tail.2)
  | none => (head :: tail.1.map SpeakerEntry.additional, tail.2)

/-- `AbstractProposal.speaker_count`: the annotated
`_additional_speaker_count` if present, else a fresh
`filter(cancelled=False).count()` lookup; plus one.  Returns the count
paired with the number of fresh lookups issued. -/
def AbstractProposal.speaker_count (p : AbstractProposal)
    (precomputedCount : Option Nat) : Nat × Nat :=
  match precomputedCount with
  | some c => (c + 1, 0)
  | none =>
      ((p.additionalspeaker_set.filter fun a => a.cancelled = false).length + 1,
        1)

/-- `_must_fill_fields = ['abstract', 'objective', 'supplementary',
'detailed_description', 'outline']`, read through `getattr`: the list of
the five mandatory fields' current values. -/
def AbstractProposal.must_fill_field_values (p : AbstractProposal) :
    List String :=
  [p.abstract, p.objective, p.supplementary, p.detailed_description, p.outline]

/-- `must_fill_fields_count`: the length of `_must_fill_fields`. -/
def AbstractProposal.must_fill_fields_count (p : AbstractProposal) : Nat :=
  p.must_fill_field_values.length

/-- `finished_fields_count`: how many mandatory fields are truthy (a
Python string is truthy iff non-empty). -/
def AbstractProposal.finished_fields_count (p : AbstractProposal) : Nat :=
  (p.must_fill_field_values.filter fun v => v ≠ "").length

/-- `finish_percentage`: `100 * finished_fields_count //
must_fill_fields_count` (Python floor division = `Nat` division here). -/
def AbstractProposal.finish_percentage (p : AbstractProposal) : Nat :=
  100 * p.finished_fields_count / p.must_fill_fields_count

/-- `unfinished_fields_count`: the complement. -/
def AbstractProposal.unfinished_fields_count (p : AbstractProposal) : Nat :=
  p.must_fill_fields_count - p.finished_fields_count

/-- `ProposalQuerySet.filter_accepted`:
`self.filter(cancelled=False, accepted=True)`. -/
def filter_accepted (qs : List AbstractProposal) : List AbstractProposal :=
  qs.filter fun p => p.cancelled = false ∧ p.accepted = some true

/-- The condition `Q(additionalspeaker_set__in=user.cospeaking_info_set.all())`:
the proposal has an additional-speaker row that lies in the user's
cospeaking-info set, i.e. one whose `user` foreign key is this user
(`cospeaking_info_set` is the reverse accessor of `AdditionalSpeaker.user`). -/
def AbstractProposal.has_cospeaker (p : AbstractProposal) (u : UserId) : Prop :=
  ∃ a ∈ p.additionalspeaker_set, a.user = u

instance (p : AbstractProposal) (u : UserId) : Decidable (p.has_cospeaker u) :=
  inferInstanceAs (Decidable (∃ a ∈ p.additionalspeaker_set, a.user = u))

/-- `ProposalQuerySet.filter_viewable(user)`:
`filter(Q(submitter=user) | Q(additionalspeaker_set__in=...))`. -/
def filter_viewable (qs : List AbstractProposal) (u : UserId) :
    List AbstractProposal :=
  qs.filter fun p => p.submitter = u ∨ p.has_cospeaker u

/-- `ProposalQuerySet.filter_reviewable(user)`:
`exclude(Q(cancelled=True) | Q(submitter=user) |
Q(additionalspeaker_set__in=...))`. -/
def filter_reviewable (qs : List AbstractProposal) (u : UserId) :
    List AbstractProposal :=
  qs.filter fun p => ¬(p.cancelled = true ∨ p.submitter = u ∨ p.has_cospeaker u)

/-- The two review stages of `LLMReview` (`STAGE_1 = 'S1'`, `STAGE_2 = 'S2'`). -/
inductive ReviewStage
  | S1
  | S2
deriving DecidableEq, Repr

/-- An `LLMReview` row: a review of one talk proposal (referenced by pk) at
one stage, with its AI-generated text fields. -/
structure LLMReview where
  proposal : Nat
  stage : ReviewStage
  categories : List String
  summary : String
  comment : String
  translated_summary : String
  translated_comment : String
  vote : String
  stage_diff : String
  translated_stage_diff : String
deriving DecidableEq, Repr

/-- Two `AdditionalSpeaker` rows collide on the
`unique_together = ['user', 'proposal_type', 'proposal_id']` key. -/
def AdditionalSpeaker.sameKey (a b : AdditionalSpeaker) : Prop :=
  a.user = b.user ∧ a.proposal_type = b.proposal_type ∧
    a.proposal_id = b.proposal_id

instance (a b : AdditionalSpeaker) : Decidable (a.sameKey b) :=
  inferInstanceAs (Decidable (_ ∧ _ ∧ _))

/-- Two `LLMReview` rows collide on the
`unique_together = (('proposal', 'stage'),)` key. -/
def LLMReview.sameKey (a b : LLMReview) : Prop :=
  a.proposal = b.proposal ∧ a.stage = b.stage

instance (a b : LLMReview) : Decidable (a.sameKey b) :=
  inferInstanceAs (Decidable (_ ∧ _))

/-- Modelled from the spec: the storage layer enforcing the
`unique_together` constraint of `AdditionalSpeaker.Meta` (the database
itself is not part of this repository's sources).  Inserting a row whose
(user, proposal-type, proposal-id) key an existing row already holds fails
with a uniqueness-conflict fault; otherwise the row is appended. -/
def insertAdditionalSpeaker (table : List AdditionalSpeaker)
    (row : AdditionalSpeaker) : Except String (List AdditionalSpeaker) :=
  if table.any fun x => decide (x.sameKey row) then
    .error "unique constraint violation"
  else
    .ok (table ++ [row])

/-- Modelled from the spec: the storage layer enforcing the
`unique_together` constraint of `LLMReview.Meta`.  Inserting a row whose
(proposal, stage) key an existing row already holds fails with a
uniqueness-conflict fault; otherwise the row is appended. -/
def insertLLMReview (table : List LLMReview) (row : LLMReview) :
    Except String (List LLMReview) :=
  if table.any fun x => decide (x.sameKey row) then
    .error "unique constraint violation"
  else
    .ok (table ++ [row])

/-- No two distinct rows of an `AdditionalSpeaker` table share the unique
key. -/
def additionalKeysUnique (table : List AdditionalSpeaker) : Prop :=
  table.Pairwise fun a b => ¬ a.sameKey b

/-- No two distinct rows of an `LLMReview` table share the unique key. -/
def reviewKeysUnique (table : List LLMReview) : Prop :=
  table.Pairwise fun a b => ¬ a.sameKey b

/-! Sample rows used by the witness theorems. -/

/-- A non-cancelled co-speaker row of the sample proposal. -/
def sampleAdd1 : AdditionalSpeaker :=
  { pk := 1, user := 7, proposal_type := 0, proposal_id := 1,
    status := .accepted, cancelled := false }

/-- A cancelled co-speaker row of the sample proposal. -/
def sampleAdd2 : AdditionalSpeaker :=
  { pk := 2, user := 8, proposal_type := 0, proposal_id := 1,
    status := .pending, cancelled := true }

/-- A sample proposal submitted by user 5, with one live and one cancelled
co-speaker. -/
def sampleProposal : AbstractProposal :=
  { pk := 1, proposal_type := 0, submitter := 5, abstract := "a",
    objective := "o", supplementary := "", detailed_description := "d",
    outline := "", cancelled := false, accepted := some true, labels := "",
    additionalspeaker_set := [sampleAdd2, sampleAdd1] }

/-- A sample stored AI review of proposal 1 at stage 1. -/
def sampleReview : LLMReview :=
  { proposal := 1, stage := .S1, categories := ["PY"], summary := "s",
    comment := "c", translated_summary := "ts", translated_comment := "tc",
    vote := "+1", stage_diff := "", translated_stage_diff := "" }

/-- Claim C3: `speaker_count` on the fresh-lookup path is one plus the
number of non-cancelled additional-speaker rows of the proposal. -/
theorem speaker_count_one_plus_noncancelled (p : AbstractProposal) :
    (p.speaker_count none).1 =
      1 + (p.additionalspeaker_set.filter fun a => a.cancelled = false).length := by
  simp [AbstractProposal.speaker_count, Nat.add_comm]

/-- Claim C4: there are five mandatory fields; `finished_fields_count`
counts the non-empty ones among them, is at most five, and
`finish_percentage = 100 * finished // 5` equals exactly `20 * finished`
(so filled counts 0..5 map to 0, 20, 40, 60, 80, 100 with no rounding up);
`unfinished_fields_count` is the complement. -/
theorem finish_metrics_spec (p : AbstractProposal) :
    p.must_fill_fields_count = 5
    ∧ p.finished_fields_count =
        (p.must_fill_field_values.filter fun v => v ≠ "").length
    ∧ p.finished_fields_count ≤ 5
    ∧ p.finish_percentage = 20 * p.finished_fields_count
    ∧ p.unfinished_fields_count = 5 - p.finished_fields_count := by
  refine ⟨rfl, rfl, ?_, ?_, rfl⟩
  · have h := List.length_filter_le (fun v => decide (v ≠ ""))
      p.must_fill_field_values
    simpa [AbstractProposal.finished_fields_count,
      AbstractProposal.must_fill_field_values] using h
  · show 100 * p.finished_fields_count / p.must_fill_fields_count = _
    have h5 : p.must_fill_fields_count = 5 := rfl
    rw [h5, show 100 * p.finished_fields_count =
      5 * (20 * p.finished_fields_count) by ring]
    exact Nat.mul_div_cancel_left _ (by norm_num)

/-- Claim C6: a proposal is in `filter_accepted` iff it is in the queryset,
not cancelled, and accepted; in particular a cancelled proposal is excluded
even when accepted. -/
theorem filter_accepted_mem (qs : List AbstractProposal) (p : AbstractProposal) :
    p ∈ filter_accepted qs ↔
      p ∈ qs ∧ p.cancelled = false ∧ p.accepted = some true := by
  simp [filter_accepted, List.mem_filter]

/-- Claim C8: two `PrimarySpeaker` wrappers compare equal exactly when they
wrap the same user and the same proposal. -/
theorem primary_eq_iff (a b : PrimarySpeaker) :
    PrimarySpeaker.eq a b = true ↔
      a.user = b.user ∧ a.proposal = b.proposal := by
  simp [PrimarySpeaker.eq]

/-- Claim C10: constructing a `PrimarySpeaker` from only a user succeeds,
and the resulting wrapper's `proposal` accessor returns `none` while its
`user` accessor returns that user: the user is derived from the proposal's
submitter when absent, but no proposal is ever derived from a user. -/
theorem primary_init_user_only (u : UserId) :
    PrimarySpeaker.init none (some u) = .ok ⟨none, u⟩
    ∧ (⟨none, u⟩ : PrimarySpeaker).proposal = none
    ∧ (⟨none, u⟩ : PrimarySpeaker).user = u :=
  ⟨rfl, rfl, rfl⟩

/-- Claim C1: on the fresh-lookup path, `speakers` yields the primary
speaker wrapping the proposal's submitter first (regardless of the
proposal's own cancellation state, since the statement holds for every
proposal), followed by exactly the non-cancelled additional-speaker rows,
sorted by the declared (proposal-type, proposal-id, pk) ordering key;
cancelled rows never appear. -/
theorem speakers_primary_then_noncancelled (p : AbstractProposal) :
    (p.speakers none none).1 =
        SpeakerEntry.primary { _proposal := some p, _user := p.submitter } ::
          p.additionalQuery.map SpeakerEntry.additional
    ∧ p.additionalQuery.Perm
        (p.additionalspeaker_set.filter fun a => a.cancelled = false)
    ∧ List.Sorted AdditionalSpeaker.orderLE p.additionalQuery
    ∧ ∀ a ∈ p.additionalQuery, a.cancelled = false := by
  refine ⟨rfl, List.perm_insertionSort _ _, List.sorted_insertionSort _ _, ?_⟩
  intro a ha
  have hmem : a ∈ p.additionalspeaker_set.filter fun a => a.cancelled = false :=
    (List.perm_insertionSort _ _).mem_iff.mp ha
  simpa using (List.mem_filter.mp hmem).2

/-- Claim C2: when the caller supplies a precomputed additional-speaker
count and/or list that agree with the stored rows, `speakers` and
`speaker_count` return exactly what the fresh-lookup path returns, and the
supplied values are used in place of a fresh lookup: with a precomputed
list, `speakers` issues zero lookups, and with a precomputed count,
`speaker_count` issues zero lookups. -/
theorem speakers_precomputed_refines (p : AbstractProposal) (c : Nat)
    (l : List AdditionalSpeaker)
    (hc : c = (p.additionalspeaker_set.filter fun a => a.cancelled = false).length)
    (hl : l = p.additionalQuery) :
    (p.speakers (some c) (some l)).1 = (p.speakers none none).1
    ∧ (p.speakers none (some l)).1 = (p.speakers none none).1
    ∧ (p.speakers (some c) none).1 = (p.speakers none none).1
    ∧ (p.speaker_count (some c)).1 = (p.speaker_count none).1
    ∧ (p.speakers (some c) (some l)).2 = 0
    ∧ (p.speakers none (some l)).2 = 0
    ∧ (p.speaker_count (some c)).2 = 0 := by
  subst hl
  have hcount : (p.speaker_count (some c)).1 = (p.speaker_count none).1
      ∧ (p.speaker_count (some c)).2 = 0 := by
    simp [AbstractProposal.speaker_count, hc]
  have hq : p.additionalQuery.length =
      (p.additionalspeaker_set.filter fun a => a.cancelled = false).length :=
    (List.perm_insertionSort _ _).length_eq
  by_cases h : c < 1
  · have h0 : p.additionalQuery = [] := List.length_eq_zero.mp (by omega)
    refine ⟨?_, ?_, ?_, hcount.1, ?_, ?_, hcount.2⟩ <;>
      simp [AbstractProposal.speakers, h, h0]
  · refine ⟨?_, ?_, ?_, hcount.1, ?_, ?_, hcount.2⟩ <;>
      simp [AbstractProposal.speakers, h]

/-- Witness for claim C2 at the sample proposal: one live co-speaker, so
the consistent precomputed count is 1 and the consistent precomputed list
is the singleton sorted query result. -/
theorem speakers_precomputed_refines_witness :
    (sampleProposal.speakers (some 1) (some [sampleAdd1])).1 =
      (sampleProposal.speakers none none).1 :=
  (speakers_precomputed_refines sampleProposal 1 [sampleAdd1] (by decide)
    (by decide)).1

/-- Claim C5: a proposal submitted by the requesting user or carrying one
of their co-speaker rows is viewable and never reviewable; a non-cancelled
proposal unrelated to the user is reviewable and not viewable. -/
theorem viewable_reviewable_partition (qs : List AbstractProposal)
    (u : UserId) (p : AbstractProposal) (hmem : p ∈ qs) :
    ((p.submitter = u ∨ p.has_cospeaker u) →
        p ∈ filter_viewable qs u ∧ p ∉ filter_reviewable qs u)
    ∧ (p.cancelled = false → p.submitter ≠ u → ¬ p.has_cospeaker u →
        p ∈ filter_reviewable qs u ∧ p ∉ filter_viewable qs u) := by
  constructor
  · intro hrel
    simp [filter_viewable, filter_reviewable, List.mem_filter, hmem, hrel]
    tauto
  · intro hcan hsub hco
    simp [filter_viewable, filter_reviewable, List.mem_filter, hmem, hcan,
      hsub, hco]

/-- Witness for claim C5: the sample proposal is submitted by user 5, so it
is viewable by user 5 and excluded from user 5's reviewable set. -/
theorem viewable_reviewable_partition_witness :
    sampleProposal ∈ filter_viewable [sampleProposal] 5
    ∧ sampleProposal ∉ filter_reviewable [sampleProposal] 5 :=
  (viewable_reviewable_partition [sampleProposal] 5 sampleProposal
    (by simp)).1 (Or.inl rfl)

/-- Claim C7: constructing a `PrimarySpeaker` with neither a proposal nor a
user fails with the invalid-argument fault, and constructing it with at
least one of the two succeeds. -/
theorem primary_init_identity_required (proposal : Option AbstractProposal)
    (user : Option UserId) (h : proposal.isSome ∨ user.isSome) :
    PrimarySpeaker.init none none =
        .error "must specify either proposal or user"
    ∧ ∃ s, PrimarySpeaker.init proposal user = .ok s := by
  refine ⟨rfl, ?_⟩
  match proposal, user with
  | some p, none => exact ⟨_, rfl⟩
  | some p, some u => exact ⟨_, rfl⟩
  | none, some u => exact ⟨_, rfl⟩
  | none, none => simp at h

/-- Witness for claim C7 at a proposal-only construction. -/
theorem primary_init_identity_required_witness :
    PrimarySpeaker.init none none =
        .error "must specify either proposal or user"
    ∧ ∃ s, PrimarySpeaker.init (some sampleProposal) none = .ok s :=
  primary_init_identity_required (some sampleProposal) none (by decide)

/-- Claim C9: inserting an `AdditionalSpeaker` row whose
(user, proposal-type, proposal-id) key is already present, or an
`LLMReview` row whose (proposal, stage) key is already present, fails with
the uniqueness-conflict fault; and a successful insert into a table whose
keys are pairwise distinct keeps them pairwise distinct, so at most one row
per key ever exists. -/
theorem unique_together_enforced (t : List AdditionalSpeaker)
    (r : AdditionalSpeaker) (T : List LLMReview) (v : LLMReview)
    (h1 : ∃ x ∈ t, x.sameKey r) (h2 : ∃ x ∈ T, x.sameKey v) :
    insertAdditionalSpeaker t r = .error "unique constraint violation"
    ∧ insertLLMReview T v = .error "unique constraint violation"
    ∧ (∀ (t₀ t₁ : List AdditionalSpeaker) (r₀ : AdditionalSpeaker),
        additionalKeysUnique t₀ → insertAdditionalSpeaker t₀ r₀ = .ok t₁ →
        additionalKeysUnique t₁)
    ∧ (∀ (T₀ T₁ : List LLMReview) (v₀ : LLMReview),
        reviewKeysUnique T₀ → insertLLMReview T₀ v₀ = .ok T₁ →
        reviewKeysUnique T₁) := by
  refine ⟨?_, ?_, ?_, ?_⟩
  · have : t.any (fun x => decide (x.sameKey r)) = true := by
      simpa [List.any_eq_true] using h1
    simp [insertAdditionalSpeaker, this]
  · have : T.any (fun x => decide (x.sameKey v)) = true := by
      simpa [List.any_eq_true] using h2
    simp [insertLLMReview, this]
  · intro t₀ t₁ r₀ hu hok
    by_cases hany : t₀.any (fun x => decide (x.sameKey r₀)) = true
    · simp [insertAdditionalSpeaker, hany] at hok
    · simp [insertAdditionalSpeaker, hany] at hok
      subst hok
      refine List.pairwise_append.mpr ⟨hu, List.pairwise_singleton _ _, ?_⟩
      intro x hx y hy
      simp at hy
      subst hy
      have := List.any_eq_true.not.mp hany
      push_neg at this
      simpa using this x hx
  · intro T₀ T₁ v₀ hu hok
    by_cases hany : T₀.any (fun x => decide (x.sameKey v₀)) = true
    · simp [insertLLMReview, hany] at hok
    · simp [insertLLMReview, hany] at hok
      subst hok
      refine List.pairwise_append.mpr ⟨hu, List.pairwise_singleton _ _, ?_⟩
      intro x hx y hy
      simp at hy
      subst hy
      have := List.any_eq_true.not.mp hany
      push_neg at this
      simpa using this x hx

/-- Witness for claim C9: re-inserting the sample co-speaker row (same
user, proposal type and proposal id) and re-inserting the sample review
(same proposal and stage) both fail. -/
theorem unique_together_enforced_witness :
    insertAdditionalSpeaker [sampleAdd1] sampleAdd1 =
        .error "unique constraint violation"
    ∧ insertLLMReview [sampleReview] sampleReview =
        .error "unique constraint violation" :=
  And.intro
    (unique_together_enforced [sampleAdd1] sampleAdd1 [sampleReview]
      sampleReview ⟨sampleAdd1, by simp, by constructor <;> simp [AdditionalSpeaker.sameKey]⟩
      ⟨sampleReview, by simp, by constructor <;> rfl⟩).1
    (unique_together_enforced [sampleAdd1] sampleAdd1 [sampleReview]
      sampleReview ⟨sampleAdd1, by simp, by constructor <;> simp [AdditionalSpeaker.sameKey]⟩
      ⟨sampleReview, by simp, by constructor <;> rfl⟩).2.1

end PyConTw
